import Mathlib

/-!
Shallow embedding of `src/main.py` (`SchedulingService`), a Playwright-driven
appointment-slot scraper with a per-instance query cache.

The browser environment is modelled as a `Page` value describing the outcome of
each browser capability the service consumes: whether navigation succeeds,
which visible texts are clickable, whether the bounded wait for the slot
selector succeeds, the slot elements' texts in document order, the
selected-date label's text, and whether taking a screenshot succeeds.

Each service method is a pure function from the `Page` (and service state) to
an `Except` result paired with the list of browser interactions it issued, in
order.  Python's exception semantics inside the `except` handlers is modelled
faithfully: an exception raised by `page.screenshot` inside an `except` block
propagates instead of the original error (the bare `raise` is never reached).
-/

/-- Deterministic model of the live page / browser session behaviour. -/
structure Page where
  navOk : Bool
  clickable : List String
  waitSlotOk : Bool
  slotTexts : List String
  selectedDate : String
  screenshotOk : Bool
deriving DecidableEq

/-- One scraped slot: `{'date': ..., 'time': ...}` (main.py line 95). -/
structure Slot where
  date : String
  time : String
deriving DecidableEq

/-- The error kinds a query call can propagate. -/
inductive Err where
  | navigationError
  | elementNotFound (text : String)
  | unknownAppointmentType (t : String)
  | timeoutError
  | screenshotError
deriving DecidableEq

/-- Browser interactions, recorded in order of issue. -/
inductive BAction where
  | navigate (url : String)
  | click (text : String)
  | waitForSelector (sel : String)
  | queryAll (sel : String)
  | readSlotText (time : String)
  | readDateLabel
  | screenshot (path : String)
deriving DecidableEq

/-- Cache key: the Python tuple `(appointment_type, date_preference)`
(main.py line 106); `none` models Python's `None`. -/
abbrev CacheKey := String × Option String

/-- The `self.state` dict: an insertion-ordered association list with unique
keys, as Python dicts are. -/
abbrev Cache := List (CacheKey × List Slot)

/-- Dict membership / lookup: `cache_key in self.state` and
`self.state[cache_key]`. -/
def cacheLookup (k : CacheKey) : Cache → Option (List Slot)
  | [] => none
  | (k', v) :: rest => if k' = k then some v else cacheLookup k rest

/-- Dict assignment `self.state[cache_key] = available_slots`: replaces in
place if the key exists, otherwise appends. -/
def cacheInsert (k : CacheKey) (v : List Slot) : Cache → Cache
  | [] => [(k, v)]
  | (k', v') :: rest =>
      if k' = k then (k, v) :: rest else (k', v') :: cacheInsert k v rest

/-- The error that escapes an `except` handler which calls
`page.screenshot` and then re-raises: if the screenshot succeeds the original
error `e` is re-raised; if the screenshot itself raises, that new exception
propagates instead (Python never reaches the bare `raise`). -/
def handleError (pg : Page) (e : Err) : Err :=
  if pg.screenshotOk then e else Err.screenshotError

/-- `page.click('text=...')`: clicks the first element with that visible text,
or fails after a bounded wait when no such element exists. -/
def pageClick (pg : Page) (text : String) : Except Err Unit × List BAction :=
  if text ∈ pg.clickable then (Except.ok (), [BAction.click text])
  else (Except.error (Err.elementNotFound text), [BAction.click text])

/-- `navigate_to_scheduling_page` (main.py lines 41-51): `page.goto(url)` plus
the network-idle wait; on failure, screenshot then re-raise. -/
def navigate_to_scheduling_page (pg : Page) (url : String) :
    Except Err Unit × List BAction :=
  if pg.navOk then
    (Except.ok (), [BAction.navigate url])
  else
    (Except.error (handleError pg Err.navigationError),
     [BAction.navigate url, BAction.screenshot "error_screenshot.png"])

/-- `select_appointment_type_direct_click` (main.py lines 53-69).  Note the
`raise ValueError(...)` for an unknown type sits inside the `try`, so the
`except` handler also screenshots and re-raises for that case. -/
def select_appointment_type_direct_click (pg : Page) (appointment_type : String) :
    Except Err Unit × List BAction :=
  let body : Except Err Unit × List BAction :=
    if appointment_type = "New appointment" then
      pageClick pg "New appointment"
    else if appointment_type = "Emergency appointment" then
      pageClick pg "Emergency appointment"
    else if appointment_type = "Invisalign consultation" then
      pageClick pg "Invisalign consultation"
    else
      (Except.error (Err.unknownAppointmentType appointment_type), [])
  match body with
  | (Except.ok u, tr) => (Except.ok u, tr)
  | (Except.error e, tr) =>
      (Except.error (handleError pg e), tr ++ [BAction.screenshot "error_screenshot.png"])

/-- Python truthiness of the `date_preference` argument (`if date_preference:`):
`None` and the empty string are falsy, every other string is truthy. -/
def pyTruthy : Option String → Bool
  | none => false
  | some s => if s = "" then false else true

/-- `set_date_preference` (main.py lines 71-82): click the date text, but only
when `date_preference` is truthy; on click failure, screenshot then re-raise. -/
def set_date_preference (pg : Page) (date_preference : Option String) :
    Except Err Unit × List BAction :=
  if pyTruthy date_preference then
    match date_preference with
    | none => (Except.ok (), [])
    | some s =>
        match pageClick pg s with
        | (Except.ok u, tr) => (Except.ok u, tr)
        | (Except.error e, tr) =>
            (Except.error (handleError pg e),
             tr ++ [BAction.screenshot "error_screenshot.png"])
  else (Except.ok (), [])

/-- `get_available_slots` (main.py lines 84-102): bounded wait for
`.time-slot`, query all matches, take the first 5 in document order; for each
taken element read its text as the time and read the `.selected-date` label
(once per iteration of the loop) as the date.  Timeout of the wait leads to
screenshot then re-raise. -/
def get_available_slots (pg : Page) : Except Err (List Slot) × List BAction :=
  if pg.waitSlotOk then
    let taken := pg.slotTexts.take 5
    (Except.ok (taken.map (fun tm => Slot.mk pg.selectedDate tm)),
     [BAction.waitForSelector ".time-slot", BAction.queryAll ".time-slot"] ++
       taken.flatMap (fun tm => [BAction.readSlotText tm, BAction.readDateLabel]))
  else
    (Except.error (handleError pg Err.timeoutError),
     [BAction.waitForSelector ".time-slot", BAction.screenshot "error_screenshot.png"])

/-- The mutable service state the query flow touches: the bound URL and the
`self.state` cache. -/
structure ServiceState where
  url : String
  state : Cache
deriving DecidableEq

/-- `check_available_appointments` (main.py lines 104-118): build the cache
key, return the cached list on a hit; on a miss run navigate, select type,
optionally set date, scrape, then store the result in the cache.  Returns the
result, the browser interactions issued by this call, and the updated state. -/
def check_available_appointments (pg : Page) (s : ServiceState)
    (appointment_type : String) (date_preference : Option String) :
    Except Err (List Slot) × List BAction × ServiceState :=
  let cache_key : CacheKey := (appointment_type, date_preference)
  match cacheLookup cache_key s.state with
  | some cached => (Except.ok cached, [], s)
  | none =>
    match navigate_to_scheduling_page pg s.url with
    | (Except.error e, tr1) => (Except.error e, tr1, s)
    | (Except.ok _, tr1) =>
      match select_appointment_type_direct_click pg appointment_type with
      | (Except.error e, tr2) => (Except.error e, tr1 ++ tr2, s)
      | (Except.ok _, tr2) =>
        match
          (if pyTruthy date_preference then set_date_preference pg date_preference
           else (Except.ok (), [])) with
        | (Except.error e, tr3) => (Except.error e, tr1 ++ tr2 ++ tr3, s)
        | (Except.ok _, tr3) =>
          match get_available_slots pg with
          | (Except.error e, tr4) => (Except.error e, tr1 ++ tr2 ++ tr3 ++ tr4, s)
          | (Except.ok available_slots, tr4) =>
            (Except.ok available_slots, tr1 ++ tr2 ++ tr3 ++ tr4,
             { s with state := cacheInsert cache_key available_slots s.state })

/-! ## Concrete demonstration values -/

/-- A well-behaved page matching the spec's end-to-end example. -/
def demoPage : Page :=
  { navOk := true
    clickable := ["New appointment", "Emergency appointment",
                  "Invisalign consultation", "Oct 10, 2025"]
    waitSlotOk := true
    slotTexts := ["9:00 AM", "9:30 AM", "10:00 AM"]
    selectedDate := "Oct 10, 2025"
    screenshotOk := true }

/-- A fresh service bound to a demo URL with an empty cache. -/
def demoService : ServiceState :=
  { url := "https://example.com/schedule", state := [] }

/-! ## Helper lemmas -/

theorem cacheLookup_insert_self (k : CacheKey) (v : List Slot) (c : Cache) :
    cacheLookup k (cacheInsert k v c) = some v := by
  induction c with
  | nil => simp [cacheInsert, cacheLookup]
  | cons hd tl ih =>
    obtain ⟨k', v'⟩ := hd
    by_cases hk : k' = k
    · simp [cacheInsert, cacheLookup, hk]
    · simp [cacheInsert, cacheLookup, hk, ih]

theorem cacheLookup_insert_ne (k k' : CacheKey) (v : List Slot) (c : Cache)
    (h : k' ≠ k) : cacheLookup k' (cacheInsert k v c) = cacheLookup k' c := by
  induction c with
  | nil => simp [cacheInsert, cacheLookup, h, Ne.symm h]
  | cons hd tl ih =>
    obtain ⟨k0, v0⟩ := hd
    by_cases hk : k0 = k
    · subst hk
      simp [cacheInsert, cacheLookup, h, Ne.symm h]
    · by_cases hk' : k0 = k'
      · simp [cacheInsert, cacheLookup, hk, hk', h]
      · simp [cacheInsert, cacheLookup, hk, hk', ih]

/-- After a call that returned `Except.ok slots`, the cache of the returned
state maps the query key to `slots`. -/
theorem check_ok_lookup (pg : Page) (s : ServiceState) (t : String)
    (d : Option String) (slots : List Slot)
    (h : (check_available_appointments pg s t d).1 = Except.ok slots) :
    cacheLookup (t, d) ((check_available_appointments pg s t d).2.2).state
      = some slots := by
  rcases hc : cacheLookup (t, d) s.state with _ | cached
  · rcases hn : navigate_to_scheduling_page pg s.url with ⟨r1, tr1⟩
    rcases r1 with e | u1
    · simp [check_available_appointments, hc, hn] at h
    · rcases hs : select_appointment_type_direct_click pg t with ⟨r2, tr2⟩
      rcases r2 with e | u2
      · simp [check_available_appointments, hc, hn, hs] at h
      · rcases hd : (if pyTruthy d then set_date_preference pg d
                     else (Except.ok (), [])) with ⟨r3, tr3⟩
        rcases r3 with e | u3
        · simp [check_available_appointments, hc, hn, hs, hd] at h
        · rcases hg : get_available_slots pg with ⟨r4, tr4⟩
          rcases r4 with e | slots'
          · simp [check_available_appointments, hc, hn, hs, hd, hg] at h
          · simp [check_available_appointments, hc, hn, hs, hd, hg] at h ⊢
            subst h
            exact cacheLookup_insert_self (t, d) slots' s.state
  · simp [check_available_appointments, hc] at h ⊢
    exact h

/-- On a cache miss, the call issues a navigation (the navigate step runs
first, whether or not it succeeds). -/
theorem navigate_on_miss (pg : Page) (s : ServiceState) (t : String)
    (d : Option String) (hc : cacheLookup (t, d) s.state = none) :
    BAction.navigate s.url ∈ (check_available_appointments pg s t d).2.1 := by
  rcases hn : navigate_to_scheduling_page pg s.url with ⟨r1, tr1⟩
  have htr1 : BAction.navigate s.url ∈ tr1 := by
    rcases hv : pg.navOk with _ | _ <;>
      simp [navigate_to_scheduling_page, hv] at hn <;>
      simp [← hn.2]
  rcases r1 with e | u1
  · simp [check_available_appointments, hc, hn, htr1]
  · rcases hs : select_appointment_type_direct_click pg t with ⟨r2, tr2⟩
    rcases r2 with e | u2
    · simp [check_available_appointments, hc, hn, hs, htr1]
    · rcases hd : (if pyTruthy d then set_date_preference pg d
                   else (Except.ok (), [])) with ⟨r3, tr3⟩
      rcases r3 with e | u3
      · simp [check_available_appointments, hc, hn, hs, hd, htr1]
      · rcases hg : get_available_slots pg with ⟨r4, tr4⟩
        rcases r4 with e | slots'
        · simp [check_available_appointments, hc, hn, hs, hd, hg, htr1]
        · simp [check_available_appointments, hc, hn, hs, hd, hg, htr1]

/-! ## Claims -/

/-- C1 (cache idempotence): if a call to `check_available_appointments`
returns `Except.ok slots`, then a second call on the resulting state with the
identical arguments returns the identical slot list while issuing no browser
interaction at all (empty action trace: no navigation, no click, no
screenshot), and leaves the state unchanged. -/
theorem cache_idempotence (pg : Page) (s : ServiceState) (t : String)
    (d : Option String) (slots : List Slot)
    (h : (check_available_appointments pg s t d).1 = Except.ok slots) :
    (check_available_appointments pg
        ((check_available_appointments pg s t d).2.2) t d).1 = Except.ok slots ∧
    (check_available_appointments pg
        ((check_available_appointments pg s t d).2.2) t d).2.1 = [] ∧
    (check_available_appointments pg
        ((check_available_appointments pg s t d).2.2) t d).2.2
      = (check_available_appointments pg s t d).2.2 := by
  have hl := check_ok_lookup pg s t d slots h
  revert hl
  generalize (check_available_appointments pg s t d).2.2 = s1
  intro hl
  simp [check_available_appointments, hl]

/-- C1 witness: the cache idempotence theorem applied to the demo page,
fresh service, appointment type "New appointment" and no date preference. -/
theorem cache_idempotence_witness :
    (check_available_appointments demoPage demoService "New appointment" none).1
        = Except.ok
            [Slot.mk "Oct 10, 2025" "9:00 AM", Slot.mk "Oct 10, 2025" "9:30 AM",
             Slot.mk "Oct 10, 2025" "10:00 AM"] ∧
    (check_available_appointments demoPage
        ((check_available_appointments demoPage demoService
            "New appointment" none).2.2) "New appointment" none).1
      = Except.ok
          [Slot.mk "Oct 10, 2025" "9:00 AM", Slot.mk "Oct 10, 2025" "9:30 AM",
           Slot.mk "Oct 10, 2025" "10:00 AM"] ∧
    (check_available_appointments demoPage
        ((check_available_appointments demoPage demoService
            "New appointment" none).2.2) "New appointment" none).2.1 = [] :=
  ⟨rfl,
   (cache_idempotence demoPage demoService "New appointment" none
      [Slot.mk "Oct 10, 2025" "9:00 AM", Slot.mk "Oct 10, 2025" "9:30 AM",
       Slot.mk "Oct 10, 2025" "10:00 AM"] rfl).1,
   (cache_idempotence demoPage demoService "New appointment" none
      [Slot.mk "Oct 10, 2025" "9:00 AM", Slot.mk "Oct 10, 2025" "9:30 AM",
       Slot.mk "Oct 10, 2025" "10:00 AM"] rfl).2.1⟩

/-- A page whose navigation fails (screenshots still work). -/
def downPage : Page :=
  { navOk := false, clickable := [], waitSlotOk := false, slotTexts := [],
    selectedDate := "", screenshotOk := true }

/-- C3 (failure non-caching): if a call to `check_available_appointments`
fails with any error, the service state (in particular the query cache) is
unchanged, a second call with the same key behaves exactly as the first
(re-attempting the full flow), and the failing call did attempt navigation. -/
theorem failure_non_caching (pg : Page) (s : ServiceState) (t : String)
    (d : Option String) (e : Err)
    (h : (check_available_appointments pg s t d).1 = Except.error e) :
    (check_available_appointments pg s t d).2.2 = s ∧
    check_available_appointments pg
        ((check_available_appointments pg s t d).2.2) t d
      = check_available_appointments pg s t d ∧
    BAction.navigate s.url ∈ (check_available_appointments pg s t d).2.1 := by
  rcases hc : cacheLookup (t, d) s.state with _ | cached
  · have hstate : (check_available_appointments pg s t d).2.2 = s := by
      rcases hn : navigate_to_scheduling_page pg s.url with ⟨r1, tr1⟩
      rcases r1 with e1 | u1
      · simp [check_available_appointments, hc, hn]
      · rcases hs : select_appointment_type_direct_click pg t with ⟨r2, tr2⟩
        rcases r2 with e2 | u2
        · simp [check_available_appointments, hc, hn, hs]
        · rcases hd : (if pyTruthy d then set_date_preference pg d
                       else (Except.ok (), [])) with ⟨r3, tr3⟩
          rcases r3 with e3 | u3
          · simp [check_available_appointments, hc, hn, hs, hd]
          · rcases hg : get_available_slots pg with ⟨r4, tr4⟩
            rcases r4 with e4 | slots'
            · simp [check_available_appointments, hc, hn, hs, hd, hg]
            · simp [check_available_appointments, hc, hn, hs, hd, hg] at h
    exact ⟨hstate, by rw [hstate], navigate_on_miss pg s t d hc⟩
  · simp [check_available_appointments, hc] at h

/-- C3 witness: navigation fails for key ("New appointment", none) on a fresh
service; the cache stays empty and navigation was attempted (so an identical
second call re-attempts it). -/
theorem failure_non_caching_witness :
    (check_available_appointments downPage demoService "New appointment" none).1
        = Except.error Err.navigationError ∧
    (check_available_appointments downPage demoService
        "New appointment" none).2.2 = demoService ∧
    BAction.navigate "https://example.com/schedule"
      ∈ (check_available_appointments downPage demoService
          "New appointment" none).2.1 :=
  ⟨rfl,
   (failure_non_caching downPage demoService "New appointment" none
      Err.navigationError rfl).1,
   (failure_non_caching downPage demoService "New appointment" none
      Err.navigationError rfl).2.2⟩

/-- C2 counterexample: calling with the unrecognized type "Walk-in" on a
healthy page does fail with the unknown-appointment-type error, but the call
DOES navigate first and DOES take a screenshot (the `raise ValueError` sits
inside the `try`, and navigation precedes type validation), contradicting the
claim that no navigation occurs and no screenshot is produced. -/
theorem unknown_type_counterexample :
    (check_available_appointments demoPage demoService "Walk-in" none).1
        = Except.error (Err.unknownAppointmentType "Walk-in") ∧
    (check_available_appointments demoPage demoService "Walk-in" none).2.1
        = [BAction.navigate "https://example.com/schedule",
           BAction.screenshot "error_screenshot.png"] :=
  ⟨rfl, rfl⟩

/-- C2 amended: on a cache miss with working navigation and screenshot
capability, an unrecognized appointment type fails with
`UnknownAppointmentTypeError` and no click is ever attempted — but only after
navigation has run, and a best-effort screenshot is taken; nothing is
cached. -/
theorem unknown_type_amended (pg : Page) (s : ServiceState) (t : String)
    (d : Option String)
    (hmiss : cacheLookup (t, d) s.state = none)
    (hnav : pg.navOk = true) (hshot : pg.screenshotOk = true)
    (h1 : t ≠ "New appointment") (h2 : t ≠ "Emergency appointment")
    (h3 : t ≠ "Invisalign consultation") :
    (check_available_appointments pg s t d).1
        = Except.error (Err.unknownAppointmentType t) ∧
    (check_available_appointments pg s t d).2.1
        = [BAction.navigate s.url, BAction.screenshot "error_screenshot.png"] ∧
    (∀ c, BAction.click c ∉ (check_available_appointments pg s t d).2.1) ∧
    (check_available_appointments pg s t d).2.2 = s := by
  have hsel : select_appointment_type_direct_click pg t
      = (Except.error (Err.unknownAppointmentType t),
         [BAction.screenshot "error_screenshot.png"]) := by
    simp [select_appointment_type_direct_click, h1, h2, h3, handleError, hshot]
  simp [check_available_appointments, hmiss, navigate_to_scheduling_page,
        hnav, hsel]

/-- C2 witness: the amended theorem applied to the demo page and the
unrecognized type "Walk-in". -/
theorem unknown_type_amended_witness :
    (check_available_appointments demoPage demoService "Walk-in" none).2.1
        = [BAction.navigate "https://example.com/schedule",
           BAction.screenshot "error_screenshot.png"] ∧
    (∀ c, BAction.click c
        ∉ (check_available_appointments demoPage demoService "Walk-in" none).2.1) :=
  ⟨(unknown_type_amended demoPage demoService "Walk-in" none rfl rfl rfl
      (by decide) (by decide) (by decide)).2.1,
   (unknown_type_amended demoPage demoService "Walk-in" none rfl rfl rfl
      (by decide) (by decide) (by decide)).2.2.1⟩

/-- A page exposing six matching slot elements. -/
def manySlotsPage : Page :=
  { navOk := true
    clickable := ["New appointment"]
    waitSlotOk := true
    slotTexts := ["8:00 AM", "8:30 AM", "9:00 AM", "9:30 AM", "10:00 AM", "10:30 AM"]
    selectedDate := "Oct 11, 2025"
    screenshotOk := true }

/-- A page whose slot-selector wait succeeds but with zero slot elements. -/
def emptySlotsPage : Page :=
  { navOk := true, clickable := [], waitSlotOk := true, slotTexts := [],
    selectedDate := "Oct 12, 2025", screenshotOk := true }

/-- C4 (result bounding): when the bounded wait succeeds, `get_available_slots`
returns the first `min 5 n` matching elements in document order (exactly 5
whenever more than 5 match) and never errors when fewer than 5 exist. -/
theorem result_bounding (pg : Page) (h : pg.waitSlotOk = true) :
    (get_available_slots pg).1
        = Except.ok ((pg.slotTexts.take 5).map
            (fun tm => Slot.mk pg.selectedDate tm)) ∧
    ∀ slots, (get_available_slots pg).1 = Except.ok slots →
      slots.length = min 5 pg.slotTexts.length ∧
      (5 < pg.slotTexts.length → slots.length = 5) ∧
      slots.map Slot.time = pg.slotTexts.take 5 := by
  constructor
  · simp [get_available_slots, h]
  · intro slots hs
    have hval : (get_available_slots pg).1
        = Except.ok ((pg.slotTexts.take 5).map
            fun tm => Slot.mk pg.selectedDate tm) := by
      simp [get_available_slots, h]
    rw [hval] at hs
    injection hs with h'
    subst h'
    refine ⟨by simp [List.length_take], ?_, ?_⟩
    · intro h5
      simp [List.length_take]
      omega
    · rw [List.map_map]
      exact List.map_id _

/-- C4 witness: the bounding theorem applied to a page with six slot
elements, yielding exactly the first five. -/
theorem result_bounding_witness :
    manySlotsPage.waitSlotOk = true ∧
    5 < manySlotsPage.slotTexts.length ∧
    (get_available_slots manySlotsPage).1
      = Except.ok
          [Slot.mk "Oct 11, 2025" "8:00 AM", Slot.mk "Oct 11, 2025" "8:30 AM",
           Slot.mk "Oct 11, 2025" "9:00 AM", Slot.mk "Oct 11, 2025" "9:30 AM",
           Slot.mk "Oct 11, 2025" "10:00 AM"] :=
  ⟨rfl, by decide, ((result_bounding manySlotsPage rfl).1).trans rfl⟩

/-- C5 (empty-but-successful result): when the wait for slot elements
succeeds but zero elements match at scrape time, `get_available_slots` returns
an empty list and raises no error. -/
theorem empty_successful (pg : Page) (h1 : pg.waitSlotOk = true)
    (h2 : pg.slotTexts = []) :
    (get_available_slots pg).1 = Except.ok [] := by
  simp [get_available_slots, h1, h2]

/-- C5 witness: the empty-result theorem applied to a page whose wait
succeeds with zero slot elements. -/
theorem empty_successful_witness :
    emptySlotsPage.waitSlotOk = true ∧ emptySlotsPage.slotTexts = [] ∧
    (get_available_slots emptySlotsPage).1 = Except.ok [] :=
  ⟨rfl, rfl, empty_successful emptySlotsPage rfl rfl⟩

/-- The scrape loop issues one selected-date read per taken slot element. -/
theorem count_readDateLabel_flatMap (l : List String) :
    (l.flatMap
        (fun tm => [BAction.readSlotText tm, BAction.readDateLabel])).count
      BAction.readDateLabel = l.length := by
  induction l with
  | nil => rfl
  | cons a l ih => simp [List.flatMap_cons, List.count_cons, List.count_append, ih]

/-- C6 counterexample: on the demo page with three slot elements, the scrape
reads the selected-date label three times — once per slot element inside the
loop — not once for the whole result, contradicting the claim that the label
is read once and reused rather than scraped per slot element. -/
theorem shared_date_counterexample :
    (get_available_slots demoPage).2.count BAction.readDateLabel = 3 ∧
    (get_available_slots demoPage).2.count BAction.readDateLabel ≠ 1 :=
  ⟨rfl, by decide⟩

/-- C6 amended: every slot in a successful scrape carries the page's single
selected-date label as its date (so all slots in one result share the same
date value), but the label is read once per taken slot element — as many
reads as slots returned — not once per result. -/
theorem shared_date_amended (pg : Page) (h : pg.waitSlotOk = true) :
    (∀ slots, (get_available_slots pg).1 = Except.ok slots →
      ∀ sl ∈ slots, sl.date = pg.selectedDate) ∧
    (get_available_slots pg).2.count BAction.readDateLabel
      = (pg.slotTexts.take 5).length := by
  constructor
  · intro slots hs sl hmem
    have hval : (get_available_slots pg).1
        = Except.ok ((pg.slotTexts.take 5).map
            fun tm => Slot.mk pg.selectedDate tm) := by
      simp [get_available_slots, h]
    rw [hval] at hs
    injection hs with h'
    subst h'
    rcases List.mem_map.mp hmem with ⟨tm, _, rfl⟩
    rfl
  · simp [get_available_slots, h, List.count_append, List.count_cons,
          count_readDateLabel_flatMap]

/-- C6 witness: the amended theorem applied to the six-slot page — five slots
taken, five selected-date reads. -/
theorem shared_date_amended_witness :
    manySlotsPage.waitSlotOk = true ∧
    (get_available_slots manySlotsPage).2.count BAction.readDateLabel = 5 :=
  ⟨rfl, ((shared_date_amended manySlotsPage rfl).2).trans rfl⟩

/-- C7 (cache key distinctness): two query keys are equal iff both components
compare equal; an absent date preference is a distinct value, not equal to any
concrete date string; and storing a result under one key never collides with a
lookup under a key differing only in date preference. -/
theorem cache_key_distinctness (t1 t2 : String) (d1 d2 : Option String)
    (ds : String) (v : List Slot) (c : Cache) :
    (((t1, d1) : CacheKey) = (t2, d2) ↔ t1 = t2 ∧ d1 = d2) ∧
    ((t1, (none : Option String)) : CacheKey) ≠ (t1, some ds) ∧
    (d1 ≠ d2 →
      cacheLookup (t1, d1) (cacheInsert (t1, d2) v c)
        = cacheLookup (t1, d1) c) := by
  refine ⟨by simp, by simp, fun hne => ?_⟩
  exact cacheLookup_insert_ne (t1, d2) (t1, d1) v c (by simp [hne])

/-- C7 witness: the distinctness theorem applied to the key with no date
preference versus the key with the concrete date "Oct 10, 2025". -/
theorem cache_key_distinctness_witness :
    (("New appointment", (none : Option String)) : CacheKey)
        ≠ ("New appointment", some "Oct 10, 2025") ∧
    cacheLookup ("New appointment", none)
        (cacheInsert ("New appointment", some "Oct 10, 2025")
          [Slot.mk "Oct 10, 2025" "9:00 AM"] [])
      = none :=
  ⟨(cache_key_distinctness "New appointment" "New appointment" none
      (some "Oct 10, 2025") "Oct 10, 2025"
      [Slot.mk "Oct 10, 2025" "9:00 AM"] []).2.1,
   ((cache_key_distinctness "New appointment" "New appointment" none
      (some "Oct 10, 2025") "Oct 10, 2025"
      [Slot.mk "Oct 10, 2025" "9:00 AM"] []).2.2 (by decide)).trans rfl⟩

/-- A page where navigation fails and the screenshot capability fails too. -/
def brokenShotPage : Page :=
  { navOk := false, clickable := [], waitSlotOk := false, slotTexts := [],
    selectedDate := "", screenshotOk := false }

/-- C8 counterexample: when navigation fails and the best-effort screenshot
also fails, the error surfaced to the caller is the screenshot failure, not
the original navigation error — the screenshot failure masks the original
error instead of being swallowed (the `except` blocks call `page.screenshot`
unguarded before the bare `raise`). -/
theorem screenshot_masking_counterexample :
    (check_available_appointments brokenShotPage demoService
        "New appointment" none).1 = Except.error Err.screenshotError ∧
    (check_available_appointments brokenShotPage demoService
        "New appointment" none).1 ≠ Except.error Err.navigationError := by
  constructor
  · rfl
  · intro hcon
    have h1 : (Except.error Err.screenshotError : Except Err (List Slot))
        = Except.error Err.navigationError :=
      Eq.trans rfl hcon
    exact Err.noConfusion (Except.error.inj h1)

/-- C8 amended: the original step failure is re-raised to the caller only
when the best-effort screenshot succeeds; when the screenshot itself fails,
the screenshot failure propagates in place of the original error.  Shown for
the error handler shared by all steps and for the navigation and scrape
steps. -/
theorem screenshot_masking_amended (pg : Page) (url : String) (e : Err) :
    (pg.screenshotOk = true → handleError pg e = e) ∧
    (pg.screenshotOk = false → handleError pg e = Err.screenshotError) ∧
    (pg.navOk = false →
      (navigate_to_scheduling_page pg url).1
        = Except.error (handleError pg Err.navigationError)) ∧
    (pg.waitSlotOk = false →
      (get_available_slots pg).1
        = Except.error (handleError pg Err.timeoutError)) := by
  refine ⟨fun h => by simp [handleError, h], fun h => by simp [handleError, h],
          fun h => by simp [navigate_to_scheduling_page, h],
          fun h => by simp [get_available_slots, h]⟩

/-- C8 witness: with a working screenshot the navigation error survives; with
a failing screenshot it is replaced by the screenshot error. -/
theorem screenshot_masking_amended_witness :
    downPage.screenshotOk = true ∧
    handleError downPage Err.navigationError = Err.navigationError ∧
    brokenShotPage.screenshotOk = false ∧
    handleError brokenShotPage Err.navigationError = Err.screenshotError :=
  ⟨rfl,
   (screenshot_masking_amended downPage "https://example.com/schedule"
      Err.navigationError).1 rfl,
   rfl,
   (screenshot_masking_amended brokenShotPage "https://example.com/schedule"
      Err.navigationError).2.1 rfl⟩

/-- C9 (end-to-end example): on a page whose slot selector yields elements
with texts "9:00 AM", "9:30 AM", "10:00 AM" in document order and whose
selected-date label reads "Oct 10, 2025", a query for "New appointment" with
no date preference returns exactly those three slots, each dated
"Oct 10, 2025". -/
theorem end_to_end_example :
    (check_available_appointments demoPage demoService "New appointment" none).1
      = Except.ok
          [Slot.mk "Oct 10, 2025" "9:00 AM",
           Slot.mk "Oct 10, 2025" "9:30 AM",
           Slot.mk "Oct 10, 2025" "10:00 AM"] := rfl

/-- C10 (implicit; falsy empty-string date preference): when the date
preference is the empty string, the on-page flow is exactly the one run for an
absent preference (Python's `if date_preference:` is false for both, so the
date-selection step is skipped), yet the cache key (type, "") is distinct from
(type, None); after a successful call with "", the key with None still misses
and re-runs navigation, so the identical flow can execute and be cached twice
under two different keys. -/
theorem empty_string_date_preference (pg : Page) (s : ServiceState) (t : String)
    (h1 : cacheLookup (t, some "") s.state = none)
    (h2 : cacheLookup (t, none) s.state = none) :
    (check_available_appointments pg s t (some "")).1
        = (check_available_appointments pg s t none).1 ∧
    (check_available_appointments pg s t (some "")).2.1
        = (check_available_appointments pg s t none).2.1 ∧
    ((t, some "") : CacheKey) ≠ (t, none) ∧
    ∀ slots,
      (check_available_appointments pg s t (some "")).1 = Except.ok slots →
      cacheLookup (t, none)
          ((check_available_appointments pg s t (some "")).2.2).state = none ∧
      BAction.navigate s.url
        ∈ (check_available_appointments pg
            ((check_available_appointments pg s t (some "")).2.2) t none).2.1 := by
  have hne : ((t, some "") : CacheKey) ≠ (t, none) := by simp
  rcases hn : navigate_to_scheduling_page pg s.url with ⟨r1, tr1⟩
  rcases r1 with e1 | u1
  · refine ⟨?_, ?_, hne, ?_⟩ <;>
      simp [check_available_appointments, h1, h2, hn, pyTruthy]
  · rcases hs : select_appointment_type_direct_click pg t with ⟨r2, tr2⟩
    rcases r2 with e2 | u2
    · refine ⟨?_, ?_, hne, ?_⟩ <;>
        simp [check_available_appointments, h1, h2, hn, hs, pyTruthy]
    · rcases hg : get_available_slots pg with ⟨r4, tr4⟩
      rcases r4 with e4 | slots'
      · refine ⟨?_, ?_, hne, ?_⟩ <;>
          simp [check_available_appointments, h1, h2, hn, hs, hg, pyTruthy]
      · refine ⟨?_, ?_, hne, ?_⟩
        · simp [check_available_appointments, h1, h2, hn, hs, hg, pyTruthy]
        · simp [check_available_appointments, h1, h2, hn, hs, hg, pyTruthy]
        · intro slots hok
          have hs1 : (check_available_appointments pg s t (some "")).2.2
              = { s with state := cacheInsert (t, some "") slots' s.state } := by
            simp [check_available_appointments, h1, hn, hs, hg, pyTruthy]
          have hlook : cacheLookup (t, none)
              ((check_available_appointments pg s t (some "")).2.2).state
                = none := by
            rw [hs1]
            simpa [cacheLookup_insert_ne (t, some "") (t, none) slots' s.state
              (by simp)] using h2
          refine ⟨hlook, ?_⟩
          have hmem := navigate_on_miss pg
            ((check_available_appointments pg s t (some "")).2.2) t none hlook
          rw [hs1] at hmem ⊢
          simpa using hmem

/-- C10 witness: the theorem applied to the demo page with a fresh service;
the empty-string call's flow equals the absent-preference call's flow, and the
two keys are distinct. -/
theorem empty_string_date_preference_witness :
    cacheLookup ("New appointment", some "") demoService.state = none ∧
    cacheLookup ("New appointment", none) demoService.state = none ∧
    (check_available_appointments demoPage demoService
        "New appointment" (some "")).2.1
      = (check_available_appointments demoPage demoService
          "New appointment" none).2.1 ∧
    (("New appointment", some "") : CacheKey) ≠ ("New appointment", none) :=
  ⟨rfl, rfl,
   (empty_string_date_preference demoPage demoService
      "New appointment" rfl rfl).2.1,
   (empty_string_date_preference demoPage demoService
      "New appointment" rfl rfl).2.2.1⟩
